import Mathlib

/-!
Verification of the L5 static type checker.

The development shallowly embeds the repository sources:
the type-environment module (`TEnv.ts`: `applyTEnv`, `combineEnvs`,
`makeNewEnv`) and the checker (`L5-typecheck.ts`: `typeofExp` and its
per-form rules, `typeOfSequence`, `typeofDefineExps`, `typeofPrim`,
`typeofLit`, ...).  The collaborator modules that are not part of the
excerpt (the `TExp` data type with its renderer and `parseTE`, the AST
data type, the `Result` channel, and the reader/AST-builder stage of the
entry points) are modelled from the design document; each such
definition carries a doc comment starting with `Modelled from the spec`.
-/

namespace L5

/-- Modelled from the spec: the two-variant success/failure outcome type
of the shared `result` module (success-with-value / failure-with-message). -/
inductive Result (α : Type) : Type
  | Ok (value : α)
  | Failure (message : String)
deriving DecidableEq

/-- Modelled from the spec: short-circuiting sequencing of the result
channel; a failure propagates unchanged. -/
def Result.bind {α β : Type} : Result α → (α → Result β) → Result β
  | .Ok v, f => f v
  | .Failure m, _ => .Failure m

/-- Source `shared/result.ts` predicate: a result is a failure. -/
def isFailure {α : Type} : Result α → Bool
  | .Ok _ => false
  | .Failure _ => true

/-- Modelled from the spec: list-wise combination of results
(`zipWithResult` of the shared `result` module) — pairs the two lists
positionally, applies the function left to right, and returns the first
failure if any. -/
def zipWithResult {α β γ : Type} (f : α → β → Result γ) : List α → List β → Result (List γ)
  | [], _ => .Ok []
  | _ :: _, [] => .Ok []
  | x :: xs, y :: ys =>
      (f x y).bind fun z => (zipWithResult f xs ys).bind fun zs => .Ok (z :: zs)

/-- Modelled from the spec: the closed set of type shapes of `TExp.ts` —
`number`, `boolean`, `string`, `void`, the empty-parameter marker, a
named type variable, procedure types and pair types. -/
inductive TExp : Type
  | NumTExp
  | BoolTExp
  | StrTExp
  | VoidTExp
  | EmptyTupleTExp
  | TVar (name : String)
  | ProcTExp (paramTEs : List TExp) (returnTE : TExp)
  | PairTExp (first second : TExp)

mutual
/-- Deep structural equality on type expressions (the generic `equals`
used by the source is deep structural equality on the tagged tree). -/
def texpEq : TExp → TExp → Bool
  | .NumTExp, .NumTExp => true
  | .BoolTExp, .BoolTExp => true
  | .StrTExp, .StrTExp => true
  | .VoidTExp, .VoidTExp => true
  | .EmptyTupleTExp, .EmptyTupleTExp => true
  | .TVar a, .TVar b => a = b
  | .ProcTExp ps r, .ProcTExp qs s => texpListEq ps qs && texpEq r s
  | .PairTExp a b, .PairTExp c d => texpEq a c && texpEq b d
  | _, _ => false

def texpListEq : List TExp → List TExp → Bool
  | [], [] => true
  | x :: xs, y :: ys => texpEq x y && texpListEq xs ys
  | _, _ => false
end

mutual
theorem texpEq_iff : ∀ a b : TExp, texpEq a b = true ↔ a = b
  | a, b => by
    cases a <;> cases b <;> simp [texpEq]
    case ProcTExp.ProcTExp ps r qs s =>
      rw [texpListEq_iff ps qs, texpEq_iff r s]
    case PairTExp.PairTExp a b c d =>
      rw [texpEq_iff a c, texpEq_iff b d]

theorem texpListEq_iff : ∀ xs ys : List TExp, texpListEq xs ys = true ↔ xs = ys
  | xs, ys => by
    cases xs <;> cases ys <;> simp [texpListEq]
    case cons.cons x xs y ys =>
      rw [texpEq_iff x y, texpListEq_iff xs ys]
end

instance : DecidableEq TExp := fun a b => decidable_of_iff _ (texpEq_iff a b)

mutual
/-- Modelled from the spec: `isContainedTvar` of `TExp.ts` — whether the
given variable name occurs syntactically as a `TVar` inside the type
expression. -/
def isContainedTvar (v : String) : TExp → Bool
  | .TVar name => name = v
  | .ProcTExp ps r => isContainedTvarList v ps || isContainedTvar v r
  | .PairTExp a b => isContainedTvar v a || isContainedTvar v b
  | .NumTExp => false
  | .BoolTExp => false
  | .StrTExp => false
  | .VoidTExp => false
  | .EmptyTupleTExp => false

def isContainedTvarList (v : String) : List TExp → Bool
  | [] => false
  | t :: ts => isContainedTvar v t || isContainedTvarList v ts
end

mutual
/-- Modelled from the spec: the `TExp`-to-text renderer of `TExp.ts`,
round-tripping with the surface annotation syntax — `number`, `boolean`,
`string`, `void`, `Empty` for the zero-parameter marker, the bare name
for a type variable, `(T1 * ... * Tn -> R)` for procedures and
`(Pair T1 T2)` for pairs. -/
def unparseTExp : TExp → String
  | .NumTExp => "number"
  | .BoolTExp => "boolean"
  | .StrTExp => "string"
  | .VoidTExp => "void"
  | .EmptyTupleTExp => "Empty"
  | .TVar name => name
  | .ProcTExp params ret =>
      "(" ++ (if params.isEmpty then "Empty"
              else String.intercalate " * " (unparseTExpList params))
          ++ " -> " ++ unparseTExp ret ++ ")"
  | .PairTExp a b => "(Pair " ++ unparseTExp a ++ " " ++ unparseTExp b ++ ")"

def unparseTExpList : List TExp → List String
  | [] => []
  | t :: ts => unparseTExp t :: unparseTExpList ts
end

/-- Modelled from the spec: the runtime representation of quoted data of
`L5-value.ts` — numbers, booleans, strings, symbols, the empty value and
binary compound cells. -/
inductive SExpValue : Type
  | num (n : Int)
  | bool (b : Bool)
  | str (s : String)
  | symbol (s : String)
  | emptySExp
  | compound (val1 val2 : SExpValue)
deriving DecidableEq

/-- Source `L5-value.ts` type guard: the value is a compound cell. -/
def isCompoundSExp : SExpValue → Bool
  | .compound _ _ => true
  | _ => false

/-- Modelled from the spec: a typed variable declaration of the AST — a
name together with its declared type annotation. -/
structure VarDecl where
  var : String
  texp : TExp
deriving DecidableEq

/-- Modelled from the spec: the AST node variants of `L5-ast.ts`
consumed by the checker — literal numbers/booleans/strings, primitive
operator references, variable references, conditionals, procedures,
applications, let and letrec (binding lists pair a declaration with a
value expression), define, and quoted literals.  The `Program` wrapper
is represented by its list of top-level forms. -/
inductive Exp : Type
  | NumExp (val : Int)
  | BoolExp (val : Bool)
  | StrExp (val : String)
  | PrimOp (op : String)
  | VarRef (v : String)
  | IfExp (test thenE altE : Exp)
  | ProcExp (args : List VarDecl) (body : List Exp) (returnTE : TExp)
  | AppExp (rator : Exp) (rands : List Exp)
  | LetExp (bindings : List (VarDecl × Exp)) (body : List Exp)
  | LetrecExp (bindings : List (VarDecl × Exp)) (body : List Exp)
  | DefineExp (vd : VarDecl) (val : Exp)
  | LitExp (val : SExpValue)

/-- Source `L5-ast.ts` type guard: the expression is a define form. -/
def isDefineExp : Exp → Bool
  | .DefineExp _ _ => true
  | _ => false

/-- Source `L5-ast.ts` type guard: the expression is a procedure form. -/
def isProcExp : Exp → Bool
  | .ProcExp _ _ _ => true
  | _ => false

/-- Modelled from the spec: serialization of a quoted value back to its
textual surface form, used only in diagnostics. -/
def unparseSExp : SExpValue → String
  | .num n => toString n
  | .bool b => if b then "#t" else "#f"
  | .str s => "\x22" ++ s ++ "\x22"
  | .symbol s => s
  | .emptySExp => "()"
  | .compound a b => "(" ++ unparseSExp a ++ " . " ++ unparseSExp b ++ ")"

/-- Renders a variable declaration as `(name : type)` surface syntax. -/
def unparseVarDecl (vd : VarDecl) : String :=
  "(" ++ vd.var ++ " : " ++ unparseTExp vd.texp ++ ")"

mutual
/-- Modelled from the spec: the external AST serializer (`unparse` of
`L5-ast.ts`), which renders any AST node back to its textual surface
form; the checker consults it only when building failure messages. -/
def unparse : Exp → String
  | .NumExp n => toString n
  | .BoolExp b => if b then "#t" else "#f"
  | .StrExp s => "\x22" ++ s ++ "\x22"
  | .PrimOp op => op
  | .VarRef v => v
  | .IfExp test thenE altE =>
      "(if " ++ unparse test ++ " " ++ unparse thenE ++ " " ++ unparse altE ++ ")"
  | .ProcExp args body returnTE =>
      "(lambda (" ++ String.intercalate " " (args.map unparseVarDecl) ++ ") : "
        ++ unparseTExp returnTE ++ " " ++ unparseExps body ++ ")"
  | .AppExp rator rands => "(" ++ unparse rator ++ unparseArgs rands ++ ")"
  | .LetExp bindings body =>
      "(let (" ++ unparseBindings bindings ++ ") " ++ unparseExps body ++ ")"
  | .LetrecExp bindings body =>
      "(letrec (" ++ unparseBindings bindings ++ ") " ++ unparseExps body ++ ")"
  | .DefineExp vd val => "(define " ++ unparseVarDecl vd ++ " " ++ unparse val ++ ")"
  | .LitExp v => "(quote " ++ unparseSExp v ++ ")"

def unparseExps : List Exp → String
  | [] => ""
  | [e] => unparse e
  | e :: e2 :: es => unparse e ++ " " ++ unparseExps (e2 :: es)

def unparseArgs : List Exp → String
  | [] => ""
  | e :: es => " " ++ unparse e ++ unparseArgs es

def unparseBindings : List (VarDecl × Exp) → String
  | [] => ""
  | [(vd, v)] => "(" ++ unparseVarDecl vd ++ " " ++ unparse v ++ ")"
  | (vd, v) :: b :: bs =>
      "(" ++ unparseVarDecl vd ++ " " ++ unparse v ++ ") " ++ unparseBindings (b :: bs)
end

/-! Type environments, from the source module `TEnv.ts`. -/

/-- Source `TEnv.ts`: a type environment is the terminal empty
environment or a frame of parallel name/type sequences chained onto an
enclosing environment. -/
inductive TEnv : Type
  | EmptyTEnv
  | ExtendTEnv (vars : List String) (texps : List TExp) (tenv : TEnv)
deriving DecidableEq

/-- Source `TEnv.ts` `applyTEnv` (with `applyExtendTEnv` inlined): look
the name up in the top frame by its first occurrence — the source
computes `vars.indexOf(v)` and falls through to the enclosing
environment exactly when the index is `-1` — and fail on the terminal
environment.  The `getD` default stands for the out-of-range access that
the source would perform on an ill-formed frame whose type sequence is
shorter than its name sequence. -/
def applyTEnv : TEnv → String → Result TExp
  | .EmptyTEnv, v => .Failure ("Type Variable not found " ++ v)
  | .ExtendTEnv vars texps tenv, v =>
      if v ∈ vars then .Ok (texps.getD (List.indexOf v vars) .VoidTExp)
      else applyTEnv tenv v

/-- Source `TEnv.ts` `makeNewEnv`: fail if some top-frame binding of the
second environment mentions its own name as a `TVar`; otherwise keep
exactly the second frame bindings whose names are not resolvable in the
first environment and chain them, as one new frame, onto the first
environment. -/
def makeNewEnv (firstEnv : TEnv) (secondEnvVars : List String)
    (secondEnvTexps : List TExp) : Result TEnv :=
  let selfDefined := (secondEnvVars.zip secondEnvTexps).any fun p => isContainedTvar p.1 p.2
  if selfDefined then .Failure "Variable is defined recursivly"
  else
    let isNotInFirst : String → Bool := fun v => isFailure (applyTEnv firstEnv v)
    let diffVars := secondEnvVars.filter isNotInFirst
    let diffTexps := diffVars.map fun v =>
      secondEnvTexps.getD (List.indexOf v secondEnvVars) .VoidTExp
    .Ok (.ExtendTEnv diffVars diffTexps firstEnv)

/-- Source `TEnv.ts` `combineEnvs`: an empty side returns the other side
unchanged, otherwise the two frames are merged by `makeNewEnv`. -/
def combineEnvs (firstEnv secondEnv : TEnv) : Result TEnv :=
  match firstEnv, secondEnv with
  | .EmptyTEnv, _ => .Ok secondEnv
  | _, .EmptyTEnv => .Ok firstEnv
  | .ExtendTEnv _ _ _, .ExtendTEnv svars stexps _ => makeNewEnv firstEnv svars stexps

/-! The checker, from the source module `L5-typecheck.ts`. -/

/-- Source `checkEqualType`: succeed iff the two type expressions are
deep-structurally equal, otherwise fail with a message rendering both
types and the context expression. -/
def checkEqualType (te1 te2 : TExp) (exp : Exp) : Result Bool :=
  if te1 = te2 then .Ok true
  else .Failure ("Incompatible types: " ++ unparseTExp te1 ++ " and " ++ unparseTExp te2
                  ++ " in " ++ unparse exp)

/-- Source `typeofPrim`: the fixed table from primitive operator symbols
to procedure types.  The source builds each row with `parseTE` on a
literal signature string; the parse results are written out here, with
`parseTE` modelled from the spec (bare identifiers such as `T`, `T1`,
`T2` parse to type variables of exactly that name, `Empty` to the empty
parameter list). -/
def typeofPrim (op : String) : Result TExp :=
  if op = "+" then .Ok (.ProcTExp [.NumTExp, .NumTExp] .NumTExp)
  else if op = "-" then .Ok (.ProcTExp [.NumTExp, .NumTExp] .NumTExp)
  else if op = "*" then .Ok (.ProcTExp [.NumTExp, .NumTExp] .NumTExp)
  else if op = "/" then .Ok (.ProcTExp [.NumTExp, .NumTExp] .NumTExp)
  else if op = "and" then .Ok (.ProcTExp [.BoolTExp, .BoolTExp] .BoolTExp)
  else if op = "or" then .Ok (.ProcTExp [.BoolTExp, .BoolTExp] .BoolTExp)
  else if op = ">" then .Ok (.ProcTExp [.NumTExp, .NumTExp] .BoolTExp)
  else if op = "<" then .Ok (.ProcTExp [.NumTExp, .NumTExp] .BoolTExp)
  else if op = "=" then .Ok (.ProcTExp [.NumTExp, .NumTExp] .BoolTExp)
  else if op = "number?" then .Ok (.ProcTExp [.TVar "T"] .BoolTExp)
  else if op = "boolean?" then .Ok (.ProcTExp [.TVar "T"] .BoolTExp)
  else if op = "string?" then .Ok (.ProcTExp [.TVar "T"] .BoolTExp)
  else if op = "list?" then .Ok (.ProcTExp [.TVar "T"] .BoolTExp)
  else if op = "pair?" then .Ok (.ProcTExp [.TVar "T"] .BoolTExp)
  else if op = "symbol?" then .Ok (.ProcTExp [.TVar "T"] .BoolTExp)
  else if op = "not" then .Ok (.ProcTExp [.BoolTExp] .BoolTExp)
  else if op = "eq?" then .Ok (.ProcTExp [.TVar "T1", .TVar "T2"] .BoolTExp)
  else if op = "string=?" then .Ok (.ProcTExp [.TVar "T1", .TVar "T2"] .BoolTExp)
  else if op = "display" then .Ok (.ProcTExp [.TVar "T"] .VoidTExp)
  else if op = "newline" then .Ok (.ProcTExp [] .VoidTExp)
  else if op = "cons" then
    .Ok (.ProcTExp [.TVar "T1", .TVar "T2"] (.PairTExp (.TVar "T1") (.TVar "T2")))
  else if op = "car" then
    .Ok (.ProcTExp [.PairTExp (.TVar "T1") (.TVar "T2")] (.TVar "T1"))
  else if op = "cdr" then
    .Ok (.ProcTExp [.PairTExp (.TVar "T1") (.TVar "T2")] (.TVar "T2"))
  else .Failure "Operator not supported"

/-- Source `typeofSExpLiteral`: classify a quoted value — numbers,
booleans and strings to their atomic types, a symbol to the type
variable named literal, the empty value to the empty-tuple marker, and a
compound cell recursively on both halves (the source delegates the
compound case to `typeofCompoundSExp`, whose body is written inline here
and re-exposed under its own name below). -/
def typeofSExpLiteral : SExpValue → Result TExp
  | .num _ => .Ok .NumTExp
  | .bool _ => .Ok .BoolTExp
  | .str _ => .Ok .StrTExp
  | .symbol _ => .Ok (.TVar "literal")
  | .emptySExp => .Ok .EmptyTupleTExp
  | .compound a b =>
      (typeofSExpLiteral a).bind fun leftTE =>
        (typeofSExpLiteral b).bind fun rightTE =>
          .Ok (.PairTExp leftTE rightTE)

/-- Source `typeofCompoundSExp`: classify both halves and pair the
results. -/
def typeofCompoundSExp (val1 val2 : SExpValue) : Result TExp :=
  (typeofSExpLiteral val1).bind fun leftTE =>
    (typeofSExpLiteral val2).bind fun rightTE =>
      .Ok (.PairTExp leftTE rightTE)

theorem typeofSExpLiteral_compound (a b : SExpValue) :
    typeofSExpLiteral (.compound a b) = typeofCompoundSExp a b := rfl

/-- Source `typeofLit`: a compound quoted value goes through
`typeofCompoundSExp`; every other quoted value — including numbers,
booleans and strings — is typed as the type variable named literal. -/
def typeofLit : SExpValue → Result TExp
  | .compound a b => typeofCompoundSExp a b
  | _ => .Ok (.TVar "literal")

mutual
/-- Source `typeofExp`: dispatch on the AST node variant.  The bodies of
the per-form rules (`typeofIf`, `typeofProc`, `typeofApp`, `typeofLet`,
`typeofLetrec`, `typeofDefine`) are written inline in the corresponding
match arms so that the recursion is structural (and therefore computes);
each rule is re-exposed under its source name below with a proved
correspondence equation. -/
def typeofExp : Exp → TEnv → Result TExp
  | .NumExp _, _ => .Ok .NumTExp
  | .BoolExp _, _ => .Ok .BoolTExp
  | .StrExp _, _ => .Ok .StrTExp
  | .PrimOp op, _ => typeofPrim op
  | .VarRef v, tenv => applyTEnv tenv v
  | .IfExp test thenE altE, tenv =>
      let testTE := typeofExp test tenv
      let thenTE := typeofExp thenE tenv
      let altTE := typeofExp altE tenv
      let constraint1 := testTE.bind fun t =>
        checkEqualType t .BoolTExp (.IfExp test thenE altE)
      let constraint2 := thenTE.bind fun t1 => altTE.bind fun t2 =>
        checkEqualType t1 t2 (.IfExp test thenE altE)
      constraint1.bind fun _ => constraint2.bind fun _ => thenTE
  | .ProcExp args body returnTE, tenv =>
      let argsTEs := args.map fun vd => vd.texp
      let extTEnv := TEnv.ExtendTEnv (args.map fun vd => vd.var) argsTEs tenv
      let constraint1 := (typeofExps body extTEnv).bind fun bodyTE =>
        checkEqualType bodyTE returnTE (.ProcExp args body returnTE)
      constraint1.bind fun _ => .Ok (.ProcTExp argsTEs returnTE)
  | .AppExp (.PrimOp "car") rands, tenv =>
      (match rands with
      | [r] =>
          (typeofExp r tenv).bind fun pair =>
            (match pair with
            | .PairTExp first _ => .Ok first
            | _ => .Failure "cdr expected a pair")
      | _ => .Failure "cdr expects exactly 1 argument")
  | .AppExp (.PrimOp "cdr") rands, tenv =>
      (match rands with
      | [r] =>
          (typeofExp r tenv).bind fun pair =>
            (match pair with
            | .PairTExp _ second => .Ok second
            | _ => .Failure "cdr expected a pair")
      | _ => .Failure "cdr expects exactly 1 argument")
  | .AppExp (.PrimOp "cons") rands, tenv =>
      (match rands with
      | [r1, r2] =>
          (typeofExp r1 tenv).bind fun t1 =>
            (typeofExp r2 tenv).bind fun t2 =>
              .Ok (.PairTExp t1 t2)
      | _ => .Failure "cons expects exactly 2 arguments")
  | .AppExp rator rands, tenv =>
      (typeofExp rator tenv).bind fun ratorTE =>
        match ratorTE with
        | .ProcTExp paramTEs returnTE =>
            if rands.length ≠ paramTEs.length then
              .Failure ("Wrong parameter numbers passed to proc: "
                          ++ unparse (.AppExp rator rands))
            else
              (checkRands rands paramTEs tenv (.AppExp rator rands)).bind fun _ =>
                .Ok returnTE
        | _ =>
            .Failure ("Application of non-procedure: " ++ unparseTExp ratorTE
                        ++ " in " ++ unparse (.AppExp rator rands))
  | .LetExp bindings body, tenv =>
      (checkLetBindings bindings tenv (.LetExp bindings body)).bind fun _ =>
        typeofExps body
          (.ExtendTEnv (bindings.map fun b => b.1.var)
                       (bindings.map fun b => b.1.texp) tenv)
  | .LetrecExp bindings body, tenv =>
      if bindings.all fun b => isProcExp b.2 then
        let tenvBody := TEnv.ExtendTEnv
          (bindings.map fun b => b.1.var)
          (bindings.map fun b =>
            match b.2 with
            | .ProcExp args _ returnTE => .ProcTExp (args.map fun vd => vd.texp) returnTE
            | _ => .VoidTExp)
          tenv
        ((typeofLetrecBodies bindings tenvBody).bind fun types =>
          zipWithResult
            (fun typeI ti => checkEqualType typeI ti (.LetrecExp bindings body))
            types
            (bindings.map fun b =>
              match b.2 with
              | .ProcExp _ _ returnTE => returnTE
              | _ => .VoidTExp)).bind fun _ =>
          typeofExps body tenvBody
      else
        .Failure ("letrec - only support binding of procedures - "
                    ++ unparse (.LetrecExp bindings body))
  | .DefineExp vd val, tenv =>
      ((typeofExp val tenv).bind fun valTE =>
        checkEqualType vd.texp valTE (.DefineExp vd val)).bind fun _ =>
        .Ok .VoidTExp
  | .LitExp v, _ => typeofLit v

/-- Source `typeofExps`: type every expression of a non-empty sequence
in the same environment and return the type of the last one. -/
def typeofExps : List Exp → TEnv → Result TExp
  | [], _ => .Failure "Unexpected empty list of expressions"
  | [e], tenv => typeofExp e tenv
  | e :: e2 :: es, tenv =>
      (typeofExp e tenv).bind fun _ => typeofExps (e2 :: es) tenv

/-- Source `typeofApp`, generic rule, argument constraints: the
`zipWithResult` over operands and declared parameter types, requiring
each operand type to equal the corresponding parameter type. -/
def checkRands : List Exp → List TExp → TEnv → Exp → Result (List Bool)
  | [], _, _, _ => .Ok []
  | _ :: _, [], _, _ => .Ok []
  | rand :: rs, trand :: ps, tenv, app =>
      ((typeofExp rand tenv).bind fun typeOfRand =>
        checkEqualType typeOfRand trand app).bind fun c =>
        (checkRands rs ps tenv app).bind fun cs => .Ok (c :: cs)

/-- Source `typeofLet`, binding constraints: the `zipWithResult` over
declared binding types and value expressions, requiring each declared
type to equal the computed type of the bound value (in the outer
environment). -/
def checkLetBindings : List (VarDecl × Exp) → TEnv → Exp → Result (List Bool)
  | [], _, _ => .Ok []
  | (vd, val) :: bs, tenv, exp =>
      ((typeofExp val tenv).bind fun typeOfVal =>
        checkEqualType vd.texp typeOfVal exp).bind fun c =>
        (checkLetBindings bs tenv exp).bind fun cs => .Ok (c :: cs)

/-- Source `typeofLetrec`, body typing: the `zipWithResult` over the
bound procedure bodies, each typed in the body environment further
extended with that procedure's own parameters.  The non-procedure arm is
unreachable: the caller has already checked `allT isProcExp`. -/
def typeofLetrecBodies : List (VarDecl × Exp) → TEnv → Result (List TExp)
  | [], _ => .Ok []
  | (_, .ProcExp args pbody _) :: bs, tenvBody =>
      (typeofExps pbody
          (.ExtendTEnv (args.map fun vd => vd.var)
                       (args.map fun vd => vd.texp) tenvBody)).bind fun t =>
        (typeofLetrecBodies bs tenvBody).bind fun ts => .Ok (t :: ts)
  | _ :: bs, tenvBody => typeofLetrecBodies bs tenvBody
end

/-- Source `typeOfSequence`: an empty sequence fails; otherwise the
first form is processed by the define/non-define dispatch of
`typeOfFirst`, whose body is written inline here so that the recursion
is structural (`typeOfFirst` and `typeofDefineExps` are re-exposed under
their source names below with proved correspondence equations). -/
def typeOfSequence : List Exp → TEnv → Result TExp
  | [], _ => .Failure "Empty sequence"
  | e :: rest, env =>
      match e with
      | .DefineExp vd val =>
          let valTE := typeofExp val env
          let constraint := valTE.bind fun t =>
            checkEqualType vd.texp t (.DefineExp vd val)
          let newEnv := TEnv.ExtendTEnv [vd.var] [vd.texp] env
          constraint.bind fun _ =>
            (combineEnvs env newEnv).bind fun env2 => typeOfSequence rest env2
      | e => if rest.isEmpty then typeofExp e env
             else (typeofExp e env).bind fun _ => typeOfSequence rest env

/-- Source `typeofDefineExps`: check the defined value against the
declared annotation, extend a fresh one-binding frame, fold it into the
current environment with `combineEnvs`, and continue with the rest of
the sequence in the combined environment. -/
def typeofDefineExps (vd : VarDecl) (val : Exp) (rest : List Exp) (tenv : TEnv) :
    Result TExp :=
  let valTE := typeofExp val tenv
  let constraint := valTE.bind fun t => checkEqualType vd.texp t (.DefineExp vd val)
  let newEnv := TEnv.ExtendTEnv [vd.var] [vd.texp] tenv
  constraint.bind fun _ =>
    (combineEnvs tenv newEnv).bind fun env2 => typeOfSequence rest env2

/-- Source `typeOfFirst`: a define at the head of a sequence goes
through `typeofDefineExps`; a non-define head is typed and, unless it is
the last form, its type is discarded before the rest is processed. -/
def typeOfFirst (first : Exp) (rest : List Exp) (env : TEnv) : Result TExp :=
  match first with
  | .DefineExp vd val => typeofDefineExps vd val rest env
  | e => if rest.isEmpty then typeofExp e env
         else (typeofExp e env).bind fun _ => typeOfSequence rest env

theorem typeOfSequence_cons (e : Exp) (rest : List Exp) (env : TEnv) :
    typeOfSequence (e :: rest) env = typeOfFirst e rest env := by
  cases e <;> rfl

/-- Source `typeofProgram`: type the program as the sequence of its
top-level forms. -/
def typeofProgram (exps : List Exp) (tenv : TEnv) : Result TExp :=
  typeOfSequence exps tenv

/-- Source `typeofApp`, re-exposed under its source name: it is the
application arm of `typeofExp`. -/
def typeofApp (rator : Exp) (rands : List Exp) (tenv : TEnv) : Result TExp :=
  typeofExp (.AppExp rator rands) tenv

/-- Source `typeofDefine` (the standalone define rule): the computed
type of the value must equal the declared annotation and the result is
the void type. -/
def typeofDefine (vd : VarDecl) (val : Exp) (tenv : TEnv) : Result TExp :=
  ((typeofExp val tenv).bind fun valTE =>
    checkEqualType vd.texp valTE (.DefineExp vd val)).bind fun _ =>
    .Ok .VoidTExp

theorem typeofExp_define (vd : VarDecl) (val : Exp) (tenv : TEnv) :
    typeofExp (.DefineExp vd val) tenv = typeofDefine vd val tenv := rfl

/-- Modelled from the spec: the `checkExpressionType` entry point
(source `L5typeof`) with the external reader/AST-builder stage elided —
it receives the expression AST the builder would produce, types it in
the empty environment and renders the resulting type expression. -/
def L5typeof (e : Exp) : Result String :=
  (typeofExp e .EmptyTEnv).bind fun t => .Ok (unparseTExp t)

/-- Modelled from the spec: the `checkProgramType` entry point (source
`L5programTypeof`) with the external reader/AST-builder stage elided —
it receives the list of top-level forms of the `(L5 ...)` program AST,
types the sequence in the empty environment and renders the result. -/
def L5programTypeof (exps : List Exp) : Result String :=
  (typeofProgram exps .EmptyTEnv).bind fun t => .Ok (unparseTExp t)

/-- Source `typeofApp` guard shape: the operator is one of the three
primitives that receive bespoke rules ahead of the generic rule. -/
def isBespokeRator : Exp → Bool
  | .PrimOp op => op = "car" || op = "cdr" || op = "cons"
  | _ => false

mutual
/-- Collection of the type-variable names occurring in a type
expression, used to state the freshness discipline of claims about
polymorphic primitive signatures. -/
def tvarNames : TExp → List String
  | .TVar n => [n]
  | .ProcTExp ps r => tvarNamesList ps ++ tvarNames r
  | .PairTExp a b => tvarNames a ++ tvarNames b
  | .NumTExp => []
  | .BoolTExp => []
  | .StrTExp => []
  | .VoidTExp => []
  | .EmptyTupleTExp => []

def tvarNamesList : List TExp → List String
  | [] => []
  | t :: ts => tvarNames t ++ tvarNamesList ts
end

/-! Helper lemmas about the result channel and the checker. -/

theorem Result.bind_eq_ok {α β : Type} {r : Result α} {f : α → Result β} {b : β} :
    r.bind f = .Ok b ↔ ∃ a, r = .Ok a ∧ f a = .Ok b := by
  cases r <;> simp [Result.bind]

theorem Result.ok_bind {α β : Type} (v : α) (f : α → Result β) :
    (Result.Ok v).bind f = f v := rfl

theorem Result.failure_bind {α β : Type} (m : String) (f : α → Result β) :
    (Result.Failure m : Result α).bind f = .Failure m := rfl

theorem isFailure_eq_true {α : Type} {r : Result α} :
    isFailure r = true ↔ ∃ m, r = .Failure m := by
  cases r <;> simp [isFailure]

theorem checkEqualType_eq_ok {te1 te2 : TExp} {exp : Exp} {c : Bool} :
    checkEqualType te1 te2 exp = .Ok c ↔ te1 = te2 ∧ c = true := by
  unfold checkEqualType
  split
  · simp_all
  · simp_all

theorem checkEqualType_self (te : TExp) (exp : Exp) :
    checkEqualType te te exp = .Ok true := by
  simp [checkEqualType]


/-! Claim C2. -/

/-- Claim C2, counterexample: the claim says a quoted-literal expression
whose value is the number 5 has the computed type `Num`; the code types
it as the type variable named literal instead (`typeofLit` sends every
non-compound value to `TVar "literal"` without consulting
`typeofSExpLiteral`). -/
theorem C2_counterexample :
    typeofLit (.num 5) = .Ok (.TVar "literal") ∧
    ¬ typeofLit (.num 5) = .Ok .NumTExp := by
  constructor
  · rfl
  · intro h
    exact absurd h (by decide)

/-- Claim C2 as amended: the number/boolean/string-to-`Num`/`Bool`/`Str`
classification, the symbol-to-`TVar "literal"` rule and the
empty-to-`Empty` rule hold of `typeofSExpLiteral`, which classifies the
halves of compound literals; a quoted-literal expression itself
(`typeofLit`) is typed `TVar "literal"` for every non-compound value —
including numbers, booleans and strings — and only compound values
receive the recursive classification. -/
theorem C2_literal_classification :
    (∀ v : SExpValue, isCompoundSExp v = false → typeofLit v = .Ok (.TVar "literal")) ∧
    (∀ n : Int, typeofSExpLiteral (.num n) = .Ok .NumTExp) ∧
    (∀ b : Bool, typeofSExpLiteral (.bool b) = .Ok .BoolTExp) ∧
    (∀ s : String, typeofSExpLiteral (.str s) = .Ok .StrTExp) ∧
    (∀ s : String, typeofSExpLiteral (.symbol s) = .Ok (.TVar "literal")) ∧
    typeofSExpLiteral .emptySExp = .Ok .EmptyTupleTExp ∧
    (∀ a b : SExpValue, typeofLit (.compound a b) = typeofCompoundSExp a b) := by
  refine ⟨?_, fun n => rfl, fun b => rfl, fun s => rfl, fun s => rfl, rfl, fun a b => rfl⟩
  intro v hv
  cases v <;> first | rfl | simp [isCompoundSExp] at hv

theorem C2_witness : typeofLit (.bool true) = .Ok (.TVar "literal") :=
  C2_literal_classification.1 (.bool true) rfl

/-! Claim C9. -/

/-- Claim C9: the program entry point renders the quoted number 5 as the
type string literal (not number), and quoted dotted-pair literals are
classified recursively on both halves. -/
theorem C9_quoted_literal_rendering :
    L5programTypeof [.LitExp (.num 5)] = .Ok "literal" ∧
    ¬ L5programTypeof [.LitExp (.num 5)] = .Ok "number" ∧
    L5programTypeof [.LitExp (.compound (.num 4) (.num 7))] = .Ok "(Pair number number)" ∧
    L5programTypeof [.LitExp (.compound (.bool true) (.num 10))] = .Ok "(Pair boolean number)" := by
  refine ⟨rfl, ?_, rfl, rfl⟩
  intro h
  exact absurd h (by decide)

/-! Claim C4. -/

/-- Claim C4, counterexample: the claim says the type-variable names in
the types returned by two independent references to polymorphic
primitives are distinct; the code builds every unary-predicate signature
from the same literal signature text, so a reference to `number?` and a
reference to `boolean?` (and equally two references to the same
predicate) both produce the name `T`. -/
theorem C4_counterexample :
    typeofPrim "number?" = .Ok (.ProcTExp [.TVar "T"] .BoolTExp) ∧
    typeofPrim "boolean?" = .Ok (.ProcTExp [.TVar "T"] .BoolTExp) ∧
    "T" ∈ tvarNames (.ProcTExp [.TVar "T"] .BoolTExp) := by
  refine ⟨rfl, rfl, ?_⟩
  decide

/-- Claim C4 as amended: every reference to a polymorphic primitive is
typed with the fixed type-variable names of its table row — `T` for the
unary predicates and `display`, `T1`/`T2` for `eq?`, `string=?`, `cons`,
`car` and `cdr` — so the names recur identically across references
instead of being fresh per reference (`typeofPrim` is a pure function of
the operator symbol). -/
theorem C4_prim_fixed_tvar_names :
    typeofPrim "number?" = .Ok (.ProcTExp [.TVar "T"] .BoolTExp) ∧
    typeofPrim "boolean?" = .Ok (.ProcTExp [.TVar "T"] .BoolTExp) ∧
    typeofPrim "string?" = .Ok (.ProcTExp [.TVar "T"] .BoolTExp) ∧
    typeofPrim "list?" = .Ok (.ProcTExp [.TVar "T"] .BoolTExp) ∧
    typeofPrim "pair?" = .Ok (.ProcTExp [.TVar "T"] .BoolTExp) ∧
    typeofPrim "symbol?" = .Ok (.ProcTExp [.TVar "T"] .BoolTExp) ∧
    typeofPrim "eq?" = .Ok (.ProcTExp [.TVar "T1", .TVar "T2"] .BoolTExp) ∧
    typeofPrim "string=?" = .Ok (.ProcTExp [.TVar "T1", .TVar "T2"] .BoolTExp) ∧
    typeofPrim "display" = .Ok (.ProcTExp [.TVar "T"] .VoidTExp) ∧
    typeofPrim "cons" = .Ok (.ProcTExp [.TVar "T1", .TVar "T2"]
      (.PairTExp (.TVar "T1") (.TVar "T2"))) ∧
    typeofPrim "car" = .Ok (.ProcTExp [.PairTExp (.TVar "T1") (.TVar "T2")] (.TVar "T1")) ∧
    typeofPrim "cdr" = .Ok (.ProcTExp [.PairTExp (.TVar "T1") (.TVar "T2")] (.TVar "T2")) := by
  exact ⟨rfl, rfl, rfl, rfl, rfl, rfl, rfl, rfl, rfl, rfl, rfl, rfl⟩

/-! Claim C7. -/

/-- Claim C7: a standalone define type checks successfully exactly when
the computed type of the value equals the declared annotation, in which
case the result is the void type (rendered void by the expression entry
point); a mismatching value type yields a failure, never a type. -/
theorem C7_define_void :
    (∀ (vd : VarDecl) (val : Exp) (tenv : TEnv) (t : TExp),
        typeofDefine vd val tenv = .Ok t ↔
          (typeofExp val tenv = .Ok vd.texp ∧ t = .VoidTExp)) ∧
    (∀ (vd : VarDecl) (val : Exp),
        typeofExp val .EmptyTEnv = .Ok vd.texp →
          L5typeof (.DefineExp vd val) = .Ok "void") ∧
    (∀ (vd : VarDecl) (val : Exp) (tenv : TEnv) (t2 : TExp),
        typeofExp val tenv = .Ok t2 → t2 ≠ vd.texp →
          isFailure (typeofDefine vd val tenv) = true) := by
  refine ⟨?_, ?_, ?_⟩
  · intro vd val tenv t
    unfold typeofDefine
    simp only [Result.bind_eq_ok, checkEqualType_eq_ok]
    constructor
    · rintro ⟨a, ⟨v0, hv0, hveq, -⟩, hok⟩
      refine ⟨hveq ▸ hv0, ?_⟩
      cases hok
      rfl
    · rintro ⟨hv, ht⟩
      exact ⟨true, ⟨vd.texp, hv, rfl, rfl⟩, by rw [ht]⟩
  · intro vd val h
    have hd : typeofExp (.DefineExp vd val) .EmptyTEnv = .Ok .VoidTExp := by
      rw [typeofExp_define]
      unfold typeofDefine
      rw [h]
      simp only [Result.bind, checkEqualType_self]
    unfold L5typeof
    rw [hd]
    rfl
  · intro vd val tenv t2 hv hne
    unfold typeofDefine
    rw [hv]
    simp only [Result.bind]
    unfold checkEqualType
    rw [if_neg fun hh => hne hh.symm]
    rfl

theorem C7_witness :
    L5typeof (.DefineExp ⟨"x", .NumTExp⟩ (.NumExp 5)) = .Ok "void" :=
  C7_define_void.2.1 ⟨"x", .NumTExp⟩ (.NumExp 5) rfl

/-! Claim C8. -/

/-- Claim C8: a letrec containing a binding whose value expression is
not syntactically a procedure expression fails to type check, whatever
the declared types are — the checker rejects before looking at any
type. -/
theorem C8_letrec_rejects_nonproc :
    ∀ (bindings : List (VarDecl × Exp)) (body : List Exp) (tenv : TEnv),
      (∃ b ∈ bindings, isProcExp b.2 = false) →
        isFailure (typeofExp (.LetrecExp bindings body) tenv) = true := by
  intro bindings body tenv h
  have hall : ¬ ((bindings.all fun b => isProcExp b.2) = true) := by
    rw [List.all_eq_true]
    intro hforall
    rcases h with ⟨b, hb, hfb⟩
    have := hforall b hb
    rw [hfb] at this
    exact Bool.false_ne_true this
  rw [typeofExp, if_neg hall]
  rfl

theorem C8_witness :
    isFailure (typeofExp (.LetrecExp [(⟨"f", .NumTExp⟩, .NumExp 3)] [.NumExp 1])
      .EmptyTEnv) = true :=
  C8_letrec_rejects_nonproc [(⟨"f", .NumTExp⟩, .NumExp 3)] [.NumExp 1] .EmptyTEnv
    ⟨(⟨"f", .NumTExp⟩, .NumExp 3), List.mem_singleton.mpr rfl, rfl⟩

/-! Claims C1 and C10: the sequence typer. -/

theorem combineEnvs_extend_single (env : TEnv) (vd : VarDecl)
    (hself : isContainedTvar vd.var vd.texp = false)
    (hunb : isFailure (applyTEnv env vd.var) = true) :
    combineEnvs env (.ExtendTEnv [vd.var] [vd.texp] env) =
      .Ok (.ExtendTEnv [vd.var] [vd.texp] env) := by
  cases env with
  | EmptyTEnv => rfl
  | ExtendTEnv avars atexps atail =>
      unfold combineEnvs makeNewEnv
      simp [hself, hunb, List.indexOf_cons_self]

theorem combineEnvs_extend_exists (env : TEnv) (vd : VarDecl)
    (hself : isContainedTvar vd.var vd.texp = false) :
    ∃ env2, combineEnvs env (.ExtendTEnv [vd.var] [vd.texp] env) = .Ok env2 := by
  cases env with
  | EmptyTEnv => exact ⟨_, rfl⟩
  | ExtendTEnv avars atexps atail =>
      unfold combineEnvs makeNewEnv
      simp [hself]

theorem typeOfSequence_define_step (vd : VarDecl) (val : Exp) (rest : List Exp)
    (env : TEnv) (hval : typeofExp val env = .Ok vd.texp) :
    typeOfSequence (.DefineExp vd val :: rest) env =
      (combineEnvs env (.ExtendTEnv [vd.var] [vd.texp] env)).bind fun env2 =>
        typeOfSequence rest env2 := by
  rw [typeOfSequence]
  rw [hval]
  simp only [Result.bind, checkEqualType_self]

/-- Claim C1: the sequence typer processes top-level forms left to
right — an empty sequence fails, a non-define form is typed and its
type discarded unless it is the last form (whose type is the overall
result), and a well-typed define whose name is fresh and
non-self-referential extends the environment seen by every subsequent
form, which can then look the name up; on the concrete program
`(L5 (define (x : number) 5) (+ x 1))` the entry point returns
number. -/
theorem C1_sequence_typer :
    (∀ env : TEnv, typeOfSequence [] env = .Failure "Empty sequence") ∧
    (∀ (e : Exp) (env : TEnv), isDefineExp e = false →
        typeOfSequence [e] env = typeofExp e env) ∧
    (∀ (e : Exp) (rest : List Exp) (env : TEnv), isDefineExp e = false → rest ≠ [] →
        typeOfSequence (e :: rest) env =
          (typeofExp e env).bind fun _ => typeOfSequence rest env) ∧
    (∀ (vd : VarDecl) (val : Exp) (rest : List Exp) (env : TEnv),
        typeofExp val env = .Ok vd.texp →
        isContainedTvar vd.var vd.texp = false →
        isFailure (applyTEnv env vd.var) = true →
        typeOfSequence (.DefineExp vd val :: rest) env =
          typeOfSequence rest (.ExtendTEnv [vd.var] [vd.texp] env)) ∧
    (∀ (vd : VarDecl) (env : TEnv),
        applyTEnv (.ExtendTEnv [vd.var] [vd.texp] env) vd.var = .Ok vd.texp) ∧
    L5programTypeof [.DefineExp ⟨"x", .NumTExp⟩ (.NumExp 5),
                     .AppExp (.PrimOp "+") [.VarRef "x", .NumExp 1]] = .Ok "number" := by
  refine ⟨fun env => rfl, ?_, ?_, ?_, ?_, by decide⟩
  · intro e env hd
    rw [typeOfSequence_cons]
    cases e <;> first | rfl | simp [isDefineExp] at hd
  · intro e rest env hd hne
    cases rest with
    | nil => exact absurd rfl hne
    | cons r rs =>
        rw [typeOfSequence_cons]
        cases e <;> first | rfl | simp [isDefineExp] at hd
  · intro vd val rest env h1 h2 h3
    rw [typeOfSequence_define_step vd val rest env h1,
        combineEnvs_extend_single env vd h2 h3]
    rfl
  · intro vd env
    simp [applyTEnv, List.indexOf_cons_self]

theorem C1_witness :
    typeOfSequence [.DefineExp ⟨"y", .NumTExp⟩ (.NumExp 2), .NumExp 3] .EmptyTEnv =
      typeOfSequence [.NumExp 3] (.ExtendTEnv ["y"] [.NumTExp] .EmptyTEnv) :=
  C1_sequence_typer.2.2.2.1 ⟨"y", .NumTExp⟩ (.NumExp 2) [.NumExp 3] .EmptyTEnv rfl rfl rfl

/-- Claim C10: a define at the end of a program sequence is handed to
the define-then-continue rule with an empty remainder, so the check ends
in the empty-sequence failure even when every form (including the define
itself) is well-typed — a define is never accepted as the final form. -/
theorem C10_trailing_define_fails :
    (∀ (vd : VarDecl) (val : Exp) (env : TEnv),
        typeofExp val env = .Ok vd.texp →
        isContainedTvar vd.var vd.texp = false →
        typeOfSequence [.DefineExp vd val] env = .Failure "Empty sequence") ∧
    L5programTypeof [.DefineExp ⟨"x", .NumTExp⟩ (.NumExp 5)] = .Failure "Empty sequence" ∧
    L5programTypeof [.NumExp 1, .DefineExp ⟨"x", .NumTExp⟩ (.NumExp 5)] =
      .Failure "Empty sequence" := by
  refine ⟨?_, by decide, by decide⟩
  intro vd val env h1 h2
  rw [typeOfSequence_define_step vd val [] env h1]
  obtain ⟨env2, he⟩ := combineEnvs_extend_exists env vd h2
  rw [he]
  rfl

theorem C10_witness :
    typeOfSequence [.DefineExp ⟨"z", .BoolTExp⟩ (.BoolExp true)] .EmptyTEnv =
      .Failure "Empty sequence" :=
  C10_trailing_define_fails.1 ⟨"z", .BoolTExp⟩ (.BoolExp true) .EmptyTEnv rfl rfl

/-! Claim C3. -/

/-- Claim C3: combining environments returns the other side unchanged
when either side is terminal; otherwise it fails when some binding of
the second frame mentions its own name as a type variable, and
otherwise returns one new frame, chained onto the first environment,
holding exactly the second-frame bindings whose names are not resolvable
in the first environment — kept names still look up to their
second-environment types, and dropped or unknown names fall through to
the first environment, so first-environment bindings win for re-declared
names. -/
theorem C3_combineEnvs :
    (∀ b : TEnv, combineEnvs .EmptyTEnv b = .Ok b) ∧
    (∀ a : TEnv, combineEnvs a .EmptyTEnv = .Ok a) ∧
    (∀ (avars : List String) (atexps : List TExp) (atail : TEnv)
       (bvars : List String) (btexps : List TExp) (btail : TEnv),
        (∃ p ∈ bvars.zip btexps, isContainedTvar p.1 p.2 = true) →
        isFailure (combineEnvs (.ExtendTEnv avars atexps atail)
          (.ExtendTEnv bvars btexps btail)) = true) ∧
    (∀ (avars : List String) (atexps : List TExp) (atail : TEnv)
       (bvars : List String) (btexps : List TExp) (btail : TEnv),
        (∀ p ∈ bvars.zip btexps, isContainedTvar p.1 p.2 = false) →
        ∃ dvars dtexps,
          combineEnvs (.ExtendTEnv avars atexps atail) (.ExtendTEnv bvars btexps btail) =
            .Ok (.ExtendTEnv dvars dtexps (.ExtendTEnv avars atexps atail)) ∧
          (∀ v, v ∈ dvars ↔ v ∈ bvars ∧
              isFailure (applyTEnv (.ExtendTEnv avars atexps atail) v) = true) ∧
          (∀ v, v ∈ dvars →
            applyTEnv (.ExtendTEnv dvars dtexps (.ExtendTEnv avars atexps atail)) v =
              applyTEnv (.ExtendTEnv bvars btexps btail) v) ∧
          (∀ v, v ∉ dvars →
            applyTEnv (.ExtendTEnv dvars dtexps (.ExtendTEnv avars atexps atail)) v =
              applyTEnv (.ExtendTEnv avars atexps atail) v)) := by
  refine ⟨?_, ?_, ?_, ?_⟩
  · intro b
    cases b <;> rfl
  · intro a
    cases a <;> rfl
  · intro avars atexps atail bvars btexps btail h
    have hany : ((bvars.zip btexps).any fun p => isContainedTvar p.1 p.2) = true := by
      rw [List.any_eq_true]
      rcases h with ⟨p, hp, hc⟩
      exact ⟨p, hp, hc⟩
    unfold combineEnvs makeNewEnv
    simp [hany, isFailure]
  · intro avars atexps atail bvars btexps btail h
    have hany : ((bvars.zip btexps).any fun p => isContainedTvar p.1 p.2) = false := by
      rw [Bool.eq_false_iff, Ne, List.any_eq_true]
      rintro ⟨p, hp, hc⟩
      have hfp := h p hp
      rw [hfp] at hc
      exact Bool.false_ne_true hc
    refine ⟨bvars.filter (fun v => isFailure (applyTEnv (.ExtendTEnv avars atexps atail) v)),
            (bvars.filter (fun v => isFailure (applyTEnv (.ExtendTEnv avars atexps atail) v))).map
              (fun v => btexps.getD (List.indexOf v bvars) .VoidTExp),
            ?_, ?_, ?_, ?_⟩
    · unfold combineEnvs makeNewEnv
      simp [hany]
    · intro v
      simp [List.mem_filter]
    · intro v hv
      have hvb : v ∈ bvars := (List.mem_filter.1 hv).1
      conv_lhs => rw [applyTEnv]
      conv_rhs => rw [applyTEnv]
      rw [if_pos hv, if_pos hvb]
      have hlt : List.indexOf v
          (bvars.filter (fun v => isFailure (applyTEnv (.ExtendTEnv avars atexps atail) v)))
          < (bvars.filter (fun v =>
              isFailure (applyTEnv (.ExtendTEnv avars atexps atail) v))).length :=
        List.indexOf_lt_length.2 hv
      have hlt2 : List.indexOf v
          (bvars.filter (fun v => isFailure (applyTEnv (.ExtendTEnv avars atexps atail) v)))
          < ((bvars.filter (fun v =>
              isFailure (applyTEnv (.ExtendTEnv avars atexps atail) v))).map
              (fun v => btexps.getD (List.indexOf v bvars) .VoidTExp)).length := by
        rw [List.length_map]
        exact hlt
      rw [List.getD_eq_getElem _ _ hlt2, List.getElem_map, List.getElem_indexOf hlt]
    · intro v hnv
      conv_lhs => rw [applyTEnv]
      rw [if_neg hnv]

theorem C3_witness :
    ∃ dvars dtexps,
      combineEnvs (.ExtendTEnv ["x"] [.NumTExp] .EmptyTEnv)
          (.ExtendTEnv ["x", "y"] [.BoolTExp, .StrTExp] .EmptyTEnv) =
        .Ok (.ExtendTEnv dvars dtexps (.ExtendTEnv ["x"] [.NumTExp] .EmptyTEnv)) ∧
      (∀ v, v ∈ dvars ↔ v ∈ ["x", "y"] ∧
          isFailure (applyTEnv (.ExtendTEnv ["x"] [.NumTExp] .EmptyTEnv) v) = true) ∧
      (∀ v, v ∈ dvars →
        applyTEnv (.ExtendTEnv dvars dtexps (.ExtendTEnv ["x"] [.NumTExp] .EmptyTEnv)) v =
          applyTEnv (.ExtendTEnv ["x", "y"] [.BoolTExp, .StrTExp] .EmptyTEnv) v) ∧
      (∀ v, v ∉ dvars →
        applyTEnv (.ExtendTEnv dvars dtexps (.ExtendTEnv ["x"] [.NumTExp] .EmptyTEnv)) v =
          applyTEnv (.ExtendTEnv ["x"] [.NumTExp] .EmptyTEnv) v) :=
  C3_combineEnvs.2.2.2 ["x"] [.NumTExp] .EmptyTEnv ["x", "y"] [.BoolTExp, .StrTExp]
    .EmptyTEnv (by decide)

/-! Claim C6. -/

/-- Claim C6: the bespoke application rules — `car` (resp. `cdr`)
succeeds exactly on one argument whose computed type is a pair type,
returning its first (resp. second) component; `cons` succeeds exactly on
two typeable arguments, returning the pair of their types with no
further constraint on what those types are; anything else fails. -/
theorem C6_car_cdr_cons :
    (∀ (rands : List Exp) (tenv : TEnv) (t : TExp),
        typeofApp (.PrimOp "car") rands tenv = .Ok t ↔
          ∃ e a b, rands = [e] ∧ typeofExp e tenv = .Ok (.PairTExp a b) ∧ t = a) ∧
    (∀ (rands : List Exp) (tenv : TEnv) (t : TExp),
        typeofApp (.PrimOp "cdr") rands tenv = .Ok t ↔
          ∃ e a b, rands = [e] ∧ typeofExp e tenv = .Ok (.PairTExp a b) ∧ t = b) ∧
    (∀ (rands : List Exp) (tenv : TEnv) (t : TExp),
        typeofApp (.PrimOp "cons") rands tenv = .Ok t ↔
          ∃ e1 e2 t1 t2, rands = [e1, e2] ∧ typeofExp e1 tenv = .Ok t1 ∧
            typeofExp e2 tenv = .Ok t2 ∧ t = .PairTExp t1 t2) := by
  refine ⟨?_, ?_, ?_⟩
  · intro rands tenv t
    cases rands with
    | nil =>
        rw [show typeofApp (.PrimOp "car") [] tenv
              = .Failure "cdr expects exactly 1 argument" from rfl]
        simp
    | cons r rs =>
        cases rs with
        | nil =>
            rw [show typeofApp (.PrimOp "car") [r] tenv
                  = (typeofExp r tenv).bind fun pair =>
                      (match pair with
                      | .PairTExp first _ => .Ok first
                      | _ => .Failure "cdr expected a pair") from rfl]
            cases hr : typeofExp r tenv with
            | Failure m => simp [Result.bind, hr]
            | Ok pt => cases pt <;> simp [Result.bind, hr]
        | cons r2 rs2 =>
            rw [show typeofApp (.PrimOp "car") (r :: r2 :: rs2) tenv
                  = .Failure "cdr expects exactly 1 argument" from rfl]
            simp
  · intro rands tenv t
    cases rands with
    | nil =>
        rw [show typeofApp (.PrimOp "cdr") [] tenv
              = .Failure "cdr expects exactly 1 argument" from rfl]
        simp
    | cons r rs =>
        cases rs with
        | nil =>
            rw [show typeofApp (.PrimOp "cdr") [r] tenv
                  = (typeofExp r tenv).bind fun pair =>
                      (match pair with
                      | .PairTExp _ second => .Ok second
                      | _ => .Failure "cdr expected a pair") from rfl]
            cases hr : typeofExp r tenv with
            | Failure m => simp [Result.bind, hr]
            | Ok pt => cases pt <;> simp [Result.bind, hr]
        | cons r2 rs2 =>
            rw [show typeofApp (.PrimOp "cdr") (r :: r2 :: rs2) tenv
                  = .Failure "cdr expects exactly 1 argument" from rfl]
            simp
  · intro rands tenv t
    cases rands with
    | nil =>
        rw [show typeofApp (.PrimOp "cons") [] tenv
              = .Failure "cons expects exactly 2 arguments" from rfl]
        simp
    | cons r rs =>
        cases rs with
        | nil =>
            rw [show typeofApp (.PrimOp "cons") [r] tenv
                  = .Failure "cons expects exactly 2 arguments" from rfl]
            simp
        | cons r2 rs2 =>
            cases rs2 with
            | nil =>
                rw [show typeofApp (.PrimOp "cons") [r, r2] tenv
                      = (typeofExp r tenv).bind fun t1 =>
                          (typeofExp r2 tenv).bind fun t2 =>
                            .Ok (.PairTExp t1 t2) from rfl]
                cases hr : typeofExp r tenv with
                | Failure m => simp [Result.bind, hr]
                | Ok t1 =>
                    cases hr2 : typeofExp r2 tenv with
                    | Failure m => simp [Result.bind, hr, hr2]
                    | Ok t2 =>
                        simp only [Result.bind]
                        constructor
                        · intro h
                          injection h with h
                          exact ⟨r, r2, t1, t2, rfl, hr, hr2, h.symm⟩
                        · rintro ⟨e1, e2, t1w, t2w, heq, h1, h2, ht⟩
                          injection heq with h3 h4
                          injection h4 with h4 h5
                          subst h3
                          subst h4
                          rw [hr] at h1
                          rw [hr2] at h2
                          injection h1 with h1
                          injection h2 with h2
                          subst h1
                          subst h2
                          rw [ht]
            | cons r3 rs3 =>
                rw [show typeofApp (.PrimOp "cons") (r :: r2 :: r3 :: rs3) tenv
                      = .Failure "cons expects exactly 2 arguments" from rfl]
                simp

theorem C6_witness :
    typeofApp (.PrimOp "car") [.AppExp (.PrimOp "cons") [.NumExp 1, .BoolExp true]]
      .EmptyTEnv = .Ok .NumTExp :=
  (C6_car_cdr_cons.1 [.AppExp (.PrimOp "cons") [.NumExp 1, .BoolExp true]]
      .EmptyTEnv .NumTExp).mpr
    ⟨.AppExp (.PrimOp "cons") [.NumExp 1, .BoolExp true], .NumTExp, .BoolTExp,
      rfl, rfl, rfl⟩

/-! Claim C5. -/


theorem typeofApp_nonbespoke (rator : Exp) (rands : List Exp) (tenv : TEnv)
    (h : isBespokeRator rator = false) :
    typeofApp rator rands tenv =
      (typeofExp rator tenv).bind fun ratorTE =>
        match ratorTE with
        | .ProcTExp paramTEs returnTE =>
            if rands.length ≠ paramTEs.length then
              .Failure ("Wrong parameter numbers passed to proc: "
                          ++ unparse (.AppExp rator rands))
            else
              (checkRands rands paramTEs tenv (.AppExp rator rands)).bind fun _ =>
                .Ok returnTE
        | _ =>
            .Failure ("Application of non-procedure: " ++ unparseTExp ratorTE
                        ++ " in " ++ unparse (.AppExp rator rands)) := by
  unfold typeofApp
  cases rator <;> try rfl
  case PrimOp op =>
    simp only [isBespokeRator, Bool.or_eq_false_iff, decide_eq_false_iff_not] at h
    obtain ⟨⟨h1, h2⟩, h3⟩ := h
    rw [typeofExp.eq_def]
    split
    all_goals first
      | rfl
      | (injections
         try subst_vars
         try simp_all)

theorem checkRands_ok_iff (rands : List Exp) (params : List TExp) (tenv : TEnv)
    (ctx : Exp) (hlen : rands.length = params.length) :
    (∃ cs, checkRands rands params tenv ctx = .Ok cs) ↔
      List.Forall₂ (fun rand param => typeofExp rand tenv = .Ok param) rands params := by
  induction rands generalizing params with
  | nil =>
      cases params with
      | nil => simp [checkRands]
      | cons p ps => simp at hlen
  | cons r rs ih =>
      cases params with
      | nil => simp at hlen
      | cons p ps =>
          have hlen2 : rs.length = ps.length := by simpa using hlen
          rw [show checkRands (r :: rs) (p :: ps) tenv ctx =
                ((typeofExp r tenv).bind fun t => checkEqualType t p ctx).bind fun c =>
                  (checkRands rs ps tenv ctx).bind fun cs => .Ok (c :: cs) from rfl]
          rw [List.forall₂_cons, ← ih ps hlen2]
          cases hr : typeofExp r tenv with
          | Failure m => simp [Result.bind]
          | Ok t0 =>
              by_cases he : t0 = p
              · subst he
                simp only [Result.bind, checkEqualType_self]
                cases hrec : checkRands rs ps tenv ctx <;> simp [Result.bind, hrec]
              · simp [Result.bind, checkEqualType, he]

/-- Claim C5: for an application whose operator is none of the bespoke
primitives car, cdr, cons, type checking succeeds exactly when the
operator types to a procedure type, the argument list matches the
declared parameter list in length, and each argument computes to a type
structurally equal to the corresponding declared parameter type (the
`Forall₂` on the right packages arity equality with the pointwise
equations); the successful result is the declared return type, and any
violation — non-procedure operator, arity mismatch, or argument type
mismatch — is a failure. -/
theorem C5_generic_application :
    ∀ (rator : Exp) (rands : List Exp) (tenv : TEnv) (t : TExp),
      isBespokeRator rator = false →
      (typeofApp rator rands tenv = .Ok t ↔
        ∃ paramTEs, typeofExp rator tenv = .Ok (.ProcTExp paramTEs t) ∧
          List.Forall₂ (fun rand param => typeofExp rand tenv = .Ok param)
            rands paramTEs) := by
  intro rator rands tenv t h
  rw [typeofApp_nonbespoke rator rands tenv h]
  cases hr : typeofExp rator tenv with
  | Failure m => simp [Result.failure_bind]
  | Ok rt =>
      cases rt
      case ProcTExp paramTEs returnTE =>
        simp only [Result.ok_bind]
        by_cases hlen : rands.length = paramTEs.length
        · rw [if_neg (not_not_intro hlen)]
          constructor
          · intro hok
            rw [Result.bind_eq_ok] at hok
            obtain ⟨cs, hcs, hret⟩ := hok
            injection hret with hret
            subst hret
            refine ⟨paramTEs, rfl, ?_⟩
            exact (checkRands_ok_iff rands paramTEs tenv _ hlen).1 ⟨cs, hcs⟩
          · rintro ⟨params, hpe, hfa⟩
            injection hpe with hpe
            injection hpe with hp1 hp2
            subst hp1
            subst hp2
            obtain ⟨cs, hcs⟩ := (checkRands_ok_iff rands paramTEs tenv _ hlen).2 hfa
            rw [hcs]
            rfl
        · rw [if_pos hlen]
          constructor
          · intro hok
            exact absurd hok (by simp)
          · rintro ⟨params, hpe, hfa⟩
            injection hpe with hpe
            injection hpe with hp1 hp2
            subst hp1
            exact absurd hfa.length_eq hlen
      all_goals simp [Result.ok_bind]

theorem C5_witness :
    typeofApp (.PrimOp "not") [.BoolExp true] .EmptyTEnv = .Ok .BoolTExp :=
  (C5_generic_application (.PrimOp "not") [.BoolExp true] .EmptyTEnv .BoolTExp rfl).mpr
    ⟨[.BoolTExp], rfl, List.Forall₂.cons rfl List.Forall₂.nil⟩
